import Mathlib

/-!
Verification of the `DatabaseConnector` layer of the sql_testing_project
repository (src/database/db_connector.py), a thin wrapper over a MySQL
driver exposing CRUD primitives, introspection and raw statement
execution.

The connector is embedded shallowly.  The backend driver (the MySQL
server together with the `mysql.connector` cursor/connection objects) is
modelled as an oracle (`Backend`): for each statement it decides whether
`cursor.execute` raises a driver `Error`, and it supplies the values the
driver would report (`rowcount`, `lastrowid`, `fetchall` results).
Each connector operation is a pure function of the oracle returning its
Python return value together with the trace of backend effects it
performed (`Event`): statement executions, commits, rollbacks, and
diagnostic prints.  Connection lifecycle state (`self.connection`,
`self.cursor`) is threaded explicitly (`ConnState`).
-/

namespace SqlTesting

/-- A scalar bind/result value (string/number/null as handled by the driver). -/
inductive Value
  | intV (n : Int)
  | strV (s : String)
  | nullV
deriving DecidableEq, Repr

/-- A result row: the dictionary cursor yields column-name/value mappings. -/
abbrev Row := List (String × Value)

/-- Observable backend effects of one connector call, in order. -/
inductive Event
  | exec (stmt : String) (params : List Value)
  | execMany (stmt : String) (rows : List (List Value))
  | commit
  | rollback
  | diag (msg : String)
deriving DecidableEq, Repr

/-- The backend oracle: outcome of each driver call and the data the driver
reports.  `execOk q ps = false` means `cursor.execute(q, ps)` raises a
`mysql.connector.Error`; likewise `commitOk = false` for `connection.commit()`. -/
structure Backend where
  execOk : String → List Value → Bool
  execManyOk : String → List (List Value) → Bool
  commitOk : Bool
  rowcount : String → List Value → Int
  rowcountMany : String → List (List Value) → Int
  lastrowid : String → List Value → Nat
  fetch : String → List Value → List Row
  errMsg : String

/-- `params or ()` in Python: `None` becomes the empty tuple. -/
def effParams : Option (List Value) → List Value
  | some ps => ps
  | none => []

/-- `DatabaseConnector.execute_query`: run a read statement, return all rows,
or `None` on a driver error (after printing a diagnostic). -/
def execute_query (b : Backend) (query : String) (params : Option (List Value)) :
    Option (List Row) × List Event :=
  let ps := effParams params
  if b.execOk query ps then
    (some (b.fetch query ps), [Event.exec query ps])
  else
    (none, [Event.exec query ps, Event.diag ("Error executing query: " ++ b.errMsg)])

/-- `DatabaseConnector.execute_non_query`: execute, commit, return
`cursor.rowcount`; on any driver error print, roll back and return `-1`. -/
def execute_non_query (b : Backend) (query : String) (params : Option (List Value)) :
    Int × List Event :=
  let ps := effParams params
  if b.execOk query ps then
    if b.commitOk then
      (b.rowcount query ps, [Event.exec query ps, Event.commit])
    else
      (-1, [Event.exec query ps,
            Event.diag ("Error executing non-query: " ++ b.errMsg), Event.rollback])
  else
    (-1, [Event.exec query ps,
          Event.diag ("Error executing non-query: " ++ b.errMsg), Event.rollback])

/-- The INSERT statement `insert` builds from a payload's keys. -/
def insertQuery (table : String) (data : List (String × Value)) : String :=
  let columns := String.intercalate ", " (data.map Prod.fst)
  let placeholders := String.intercalate ", " (List.replicate data.length "%s")
  "INSERT INTO " ++ table ++ " (" ++ columns ++ ") VALUES (" ++ placeholders ++ ")"

/-- `DatabaseConnector.insert`: build the INSERT from the payload, execute
with the payload's values, commit and return `cursor.lastrowid`; on a driver
error print, roll back and return `None`.  The payload is the insertion-ordered
association list underlying the Python dict. -/
def insert (b : Backend) (table : String) (data : List (String × Value)) :
    Option Nat × List Event :=
  let query := insertQuery table data
  let vals := data.map Prod.snd
  if b.execOk query vals then
    if b.commitOk then
      (some (b.lastrowid query vals), [Event.exec query vals, Event.commit])
    else
      (none, [Event.exec query vals,
              Event.diag ("Error inserting record: " ++ b.errMsg), Event.rollback])
  else
    (none, [Event.exec query vals,
            Event.diag ("Error inserting record: " ++ b.errMsg), Event.rollback])

/-- The INSERT statement `insert_many` builds from an explicit column list. -/
def insertManyQuery (table : String) (columns : List String) : String :=
  let cols := String.intercalate ", " columns
  let placeholders := String.intercalate ", " (List.replicate columns.length "%s")
  "INSERT INTO " ++ table ++ " (" ++ cols ++ ") VALUES (" ++ placeholders ++ ")"

/-- `DatabaseConnector.insert_many`: one parameterized statement executed over
all rows via `executemany`, then commit; on a driver error print, roll back and
return `-1`. -/
def insert_many (b : Backend) (table : String) (columns : List String)
    (data : List (List Value)) : Int × List Event :=
  let query := insertManyQuery table columns
  if b.execManyOk query data then
    if b.commitOk then
      (b.rowcountMany query data, [Event.execMany query data, Event.commit])
    else
      (-1, [Event.execMany query data,
            Event.diag ("Error inserting multiple records: " ++ b.errMsg), Event.rollback])
  else
    (-1, [Event.execMany query data,
          Event.diag ("Error inserting multiple records: " ++ b.errMsg), Event.rollback])

/-- The UPDATE statement `update` builds: one `col = %s` item per payload key. -/
def updateQuery (table : String) (data : List (String × Value)) (condition : String) :
    String :=
  let set_clause := String.intercalate ", " (data.map (fun kv => kv.1 ++ " = %s"))
  "UPDATE " ++ table ++ " SET " ++ set_clause ++ " WHERE " ++ condition

/-- `DatabaseConnector.update`: build the UPDATE, bind payload values followed
by the condition parameters, and delegate to `execute_non_query`. -/
def update (b : Backend) (table : String) (data : List (String × Value))
    (condition : String) (condition_params : List Value) : Int × List Event :=
  let params := data.map Prod.snd ++ condition_params
  execute_non_query b (updateQuery table data condition) (some params)

/-- `DatabaseConnector.delete`: build `DELETE FROM <table> WHERE <condition>`
and delegate to `execute_non_query`. -/
def delete (b : Backend) (table : String) (condition : String)
    (condition_params : List Value) : Int × List Event :=
  execute_non_query b ("DELETE FROM " ++ table ++ " WHERE " ++ condition)
    (some condition_params)

/-- Python truthiness of an optional string argument (`None` and `""` are falsy). -/
def truthyStr : Option String → Bool
  | some s => s ≠ ""
  | none => false

/-- Python truthiness of an optional int argument (`None` and `0` are falsy). -/
def truthyInt : Option Int → Bool
  | some n => n ≠ 0
  | none => false

/-- The SELECT statement `select` builds: base query, then WHERE / ORDER BY /
LIMIT appended in that order, each gated on Python truthiness of its argument. -/
def selectQuery (table : String) (columns : String) (condition : Option String)
    (order_by : Option String) (limit : Option Int) : String :=
  let q := "SELECT " ++ columns ++ " FROM " ++ table
  let q := if truthyStr condition then q ++ " WHERE " ++ condition.getD "" else q
  let q := if truthyStr order_by then q ++ " ORDER BY " ++ order_by.getD "" else q
  if truthyInt limit then q ++ " LIMIT " ++ toString (limit.getD 0) else q

/-- `DatabaseConnector.select`: build the SELECT and delegate to
`execute_query` with the condition parameters. -/
def select (b : Backend) (table : String) (columns : String)
    (condition : Option String) (condition_params : Option (List Value))
    (order_by : Option String) (limit : Option Int) :
    Option (List Row) × List Event :=
  execute_query b (selectQuery table columns condition order_by limit) condition_params

/-- `DatabaseConnector.truncate_table`: execute `TRUNCATE TABLE <name>` and
commit, returning `True`; on a driver error print and return `False`.  Note the
source's except-branch performs no rollback. -/
def truncate_table (b : Backend) (table_name : String) : Bool × List Event :=
  let query := "TRUNCATE TABLE " ++ table_name
  if b.execOk query [] then
    if b.commitOk then
      (true, [Event.exec query [], Event.commit])
    else
      (false, [Event.exec query [],
               Event.diag ("Error truncating table: " ++ b.errMsg)])
  else
    (false, [Event.exec query [],
             Event.diag ("Error truncating table: " ++ b.errMsg)])

/-- Python `str.split(sep)` restricted to the `;` separator: split at every
occurrence, keeping empty pieces.  The result is always non-empty. -/
def splitSemi : List Char → List (List Char)
  | [] => [[]]
  | c :: cs =>
    match splitSemi cs, c with
    | r :: rs, ';' => [] :: r :: rs
    | r :: rs, _ => (c :: r) :: rs
    | [], _ => [[]]

/-- The characters Python `str.strip()` removes (ASCII whitespace). -/
def isPySpace (c : Char) : Bool :=
  c = ' ' || c = '\t' || c = '\n' || c = '\r' || c = '\x0b' || c = '\x0c'

/-- Python `str.strip()`: drop leading and trailing whitespace. -/
def stripChars (l : List Char) : List Char :=
  ((l.dropWhile isPySpace).reverse.dropWhile isPySpace).reverse

/-- The statements `execute_script` runs: split the script on `;`, strip each
piece, drop the empty ones. -/
def scriptStatements (script : String) : List String :=
  (((splitSemi script.data).map stripChars).filter (fun l => l ≠ [])).map
    (fun l => String.mk l)

/-- Execute the statements in order, stopping at the first driver error.
Returns the trace of executions and whether the whole list succeeded.
`cursor.execute(statement)` with no params binds the empty tuple. -/
def runStatements (b : Backend) : List String → List Event × Bool
  | [] => ([], true)
  | s :: rest =>
    if b.execOk s [] then
      let r := runStatements b rest
      (Event.exec s [] :: r.1, r.2)
    else
      ([Event.exec s []], false)

/-- `DatabaseConnector.execute_script`: run each non-empty trimmed statement in
sequence, commit once at the end and return `True`; on any driver error print,
roll back and return `False`. -/
def execute_script (b : Backend) (script : String) : Bool × List Event :=
  let r := runStatements b (scriptStatements script)
  if r.2 then
    if b.commitOk then
      (true, r.1 ++ [Event.commit])
    else
      (false, r.1 ++ [Event.diag ("Error executing script: " ++ b.errMsg), Event.rollback])
  else
    (false, r.1 ++ [Event.diag ("Error executing script: " ++ b.errMsg), Event.rollback])

/-- The catalog query `table_exists` issues (verbatim triple-quoted text). -/
def tableExistsQuery : String :=
  "\n            SELECT COUNT(*) as count \n            FROM information_schema.tables \n            WHERE table_schema = %s AND table_name = %s\n        "

/-- `DatabaseConnector.table_exists`: run the catalog query bound to the
configured database name and the table name; return `result[0][count] > 0`
when the result is truthy (non-`None`, non-empty) and `False` otherwise.
On success the backend yields one row whose `count` column is an integer;
any other shape is unreachable and mapped to `false`. -/
def table_exists (b : Backend) (dbName : String) (table_name : String) :
    Bool × List Event :=
  let r := execute_query b tableExistsQuery
    (some [Value.strV dbName, Value.strV table_name])
  match r.1 with
  | some (row :: _) =>
    (match row.lookup "count" with
     | some (Value.intV n) => (decide (0 < n), r.2)
     | _ => (false, r.2))
  | some [] => (false, r.2)
  | none => (false, r.2)

/-! ### Connection lifecycle -/

/-- A driver object held in an instance attribute: still open, or closed. -/
inductive Handle
  | live
  | closed
deriving DecidableEq, Repr

/-- The connector's instance state: the `self.connection` and `self.cursor`
attributes (`none` = the attribute is `None`). -/
structure ConnState where
  connection : Option Handle
  cursor : Option Handle
deriving DecidableEq, Repr

/-- `DatabaseConnector.__init__`: both attributes start as `None`. -/
def initState : ConnState := ⟨none, none⟩

/-- Outcome of one connection attempt: success, failure of
`mysql.connector.connect` itself, or failure of `connection.cursor(...)`
after the session was assigned. -/
inductive ConnectOutcome
  | ok
  | sessionFail (msg : String)
  | cursorFail (msg : String)
deriving DecidableEq, Repr

/-- Observable effects of the lifecycle methods. -/
inductive LifeEvent
  | connectCall
  | disconnectCall
  | cursorClose
  | connectionClose
  | diag (msg : String)
deriving DecidableEq, Repr

/-- `DatabaseConnector.connect`: assign a new session, then a new cursor,
return `True`; a driver `Error` at either step is caught, printed, and `False`
is returned.  If the session assignment itself raised, the attributes are
untouched; if cursor creation raised, the session attribute keeps the fresh
live session while the cursor attribute is untouched. -/
def connect (oc : ConnectOutcome) (st : ConnState) : Bool × ConnState × List LifeEvent :=
  match oc with
  | ConnectOutcome.ok =>
    (true, ⟨some Handle.live, some Handle.live⟩, [LifeEvent.connectCall])
  | ConnectOutcome.sessionFail m =>
    (false, st,
     [LifeEvent.connectCall, LifeEvent.diag ("Error connecting to database: " ++ m)])
  | ConnectOutcome.cursorFail m =>
    (false, ⟨some Handle.live, st.cursor⟩,
     [LifeEvent.connectCall, LifeEvent.diag ("Error connecting to database: " ++ m)])

/-- `DatabaseConnector.disconnect`: close the cursor if the attribute is truthy,
then close the connection if present and still connected.  The attributes are
not reset to `None`; they keep the now-closed objects. -/
def disconnect (st : ConnState) : ConnState × List LifeEvent :=
  let cur : Option Handle × List LifeEvent :=
    match st.cursor with
    | some _ => (some Handle.closed, [LifeEvent.cursorClose])
    | none => (none, [])
  let conn : Option Handle × List LifeEvent :=
    match st.connection with
    | some Handle.live => (some Handle.closed, [LifeEvent.connectionClose])
    | some Handle.closed => (some Handle.closed, [])
    | none => (none, [])
  (⟨conn.1, cur.1⟩, LifeEvent.disconnectCall :: (cur.2 ++ conn.2))

/-- The `with`-statement protocol over the connector: `__enter__` calls
`connect` and discards its Boolean result; `__exit__` calls `disconnect`
on every exit path, whether or not the body raised (`bodyRaises`). -/
def scopedRun (oc : ConnectOutcome) (bodyRaises : Bool) (st : ConnState) :
    ConnState × List LifeEvent :=
  let entered := connect oc st
  let exited := disconnect entered.2.1
  (exited.1, entered.2.2 ++ exited.2)

/-- The spec's "fully connected" resting state: both attributes hold a live
driver object. -/
abbrev fullyConnected (st : ConnState) : Prop :=
  st.connection = some Handle.live ∧ st.cursor = some Handle.live

/-- The spec's "fully disconnected" resting state: neither attribute holds a
live driver object (each is `None` or an already-closed handle). -/
abbrev fullyDisconnected (st : ConnState) : Prop :=
  st.connection ≠ some Handle.live ∧ st.cursor ≠ some Handle.live

/-- The spec's resting-state invariant: fully connected or fully disconnected. -/
abbrev restingConsistent (st : ConnState) : Prop :=
  fullyConnected st ∨ fullyDisconnected st

/-! ### Concrete backends used to instantiate the theorems -/

/-- A backend on which every driver call succeeds. -/
def okBackend : Backend where
  execOk := fun _ _ => true
  execManyOk := fun _ _ => true
  commitOk := true
  rowcount := fun _ _ => 1
  rowcountMany := fun _ _ => 2
  lastrowid := fun _ _ => 7
  fetch := fun _ _ => [[("count", Value.intV 1)]]
  errMsg := "ok"

/-- A backend on which every statement execution raises a driver error. -/
def failBackend : Backend where
  execOk := fun _ _ => false
  execManyOk := fun _ _ => false
  commitOk := true
  rowcount := fun _ _ => 1
  rowcountMany := fun _ _ => 2
  lastrowid := fun _ _ => 7
  fetch := fun _ _ => []
  errMsg := "constraint violation"

/-- A backend whose catalog queries succeed but report a zero count. -/
def zeroCountBackend : Backend where
  execOk := fun _ _ => true
  execManyOk := fun _ _ => true
  commitOk := true
  rowcount := fun _ _ => 0
  rowcountMany := fun _ _ => 0
  lastrowid := fun _ _ => 0
  fetch := fun _ _ => [[("count", Value.intV 0)]]
  errMsg := "ok"

/-! ### Theorems -/

/-- C1: `execute_non_query` on success commits and returns the affected-row
count; on any backend error it rolls back (with no commit) and returns `-1`;
and every call closes its own transaction, ending in a commit or a rollback. -/
theorem execute_non_query_transactional (b : Backend) (q : String)
    (p : Option (List Value)) :
    (b.execOk q (effParams p) = true → b.commitOk = true →
      execute_non_query b q p =
        (b.rowcount q (effParams p), [Event.exec q (effParams p), Event.commit])) ∧
    ((b.execOk q (effParams p) = false ∨ b.commitOk = false) →
      (execute_non_query b q p).1 = -1 ∧
      Event.rollback ∈ (execute_non_query b q p).2 ∧
      Event.commit ∉ (execute_non_query b q p).2) ∧
    ((execute_non_query b q p).2.getLast? = some Event.commit ∨
      (execute_non_query b q p).2.getLast? = some Event.rollback) := by
  unfold execute_non_query
  rcases h1 : b.execOk q (effParams p) <;> rcases h2 : b.commitOk <;> simp [h1, h2]

/-- Witness for C1 at a concrete backend and statement. -/
theorem execute_non_query_transactional_witness :
    execute_non_query okBackend "DELETE FROM users" none =
      (1, [Event.exec "DELETE FROM users" [], Event.commit]) :=
  (execute_non_query_transactional okBackend "DELETE FROM users" none).1 rfl rfl

/-- C4: `update` builds `UPDATE <table> SET <col = %s, ...> WHERE <condition>`
from the payload's keys, binds the payload's values followed by the condition
parameters in that order, and delegates to the non-query path. -/
theorem update_builds_and_delegates (b : Backend) (table : String)
    (data : List (String × Value)) (condition : String)
    (condition_params : List Value) :
    update b table data condition condition_params =
      execute_non_query b
        ("UPDATE " ++ table ++ " SET " ++
          String.intercalate ", " (data.map (fun kv => kv.1 ++ " = %s")) ++
          " WHERE " ++ condition)
        (some (data.map Prod.snd ++ condition_params)) := rfl

/-- C5: `insert` builds the INSERT from the payload's keys and placeholders,
on success commits and returns the generated identifier (positive whenever the
backend generates a positive one), and on backend rejection rolls back and
returns the `none` sentinel. -/
theorem insert_commit_or_rollback (b : Backend) (table : String)
    (data : List (String × Value)) :
    (b.execOk (insertQuery table data) (data.map Prod.snd) = true →
      b.commitOk = true →
      insert b table data =
        (some (b.lastrowid (insertQuery table data) (data.map Prod.snd)),
         [Event.exec (insertQuery table data) (data.map Prod.snd), Event.commit])) ∧
    (b.execOk (insertQuery table data) (data.map Prod.snd) = true →
      b.commitOk = true →
      0 < b.lastrowid (insertQuery table data) (data.map Prod.snd) →
      ∃ id, (insert b table data).1 = some id ∧ 0 < id) ∧
    ((b.execOk (insertQuery table data) (data.map Prod.snd) = false ∨
        b.commitOk = false) →
      (insert b table data).1 = none ∧
      Event.rollback ∈ (insert b table data).2 ∧
      Event.commit ∉ (insert b table data).2) := by
  unfold insert
  rcases h1 : b.execOk (insertQuery table data) (data.map Prod.snd) <;>
    rcases h2 : b.commitOk <;> simp [h1, h2]

/-- Witness for C5: a successful insert of a two-column payload commits and
returns the backend's generated identifier, and a rejected insert returns the
`none` sentinel after a rollback. -/
theorem insert_commit_or_rollback_witness :
    insert okBackend "users" [("username", Value.strV "testuser"),
        ("email", Value.strV "testuser@example.com")] =
      (some 7,
       [Event.exec "INSERT INTO users (username, email) VALUES (%s, %s)"
          [Value.strV "testuser", Value.strV "testuser@example.com"],
        Event.commit]) ∧
    (insert failBackend "users" [("username", Value.strV "testuser")]).1 = none :=
  ⟨(insert_commit_or_rollback okBackend "users"
      [("username", Value.strV "testuser"),
       ("email", Value.strV "testuser@example.com")]).1 rfl rfl,
   ((insert_commit_or_rollback failBackend "users"
      [("username", Value.strV "testuser")]).2.2 (Or.inl rfl)).1⟩

/-- C10: `table_exists` returns `false` both when the catalog query itself
fails with a backend error and when it succeeds reporting a non-positive count
(table absent), so the two cases are indistinguishable to the caller. -/
theorem table_exists_false_on_error_or_absent (b : Backend)
    (db tn : String) :
    (b.execOk tableExistsQuery [Value.strV db, Value.strV tn] = false →
      (table_exists b db tn).1 = false) ∧
    (∀ n : Int,
      b.execOk tableExistsQuery [Value.strV db, Value.strV tn] = true →
      b.fetch tableExistsQuery [Value.strV db, Value.strV tn] =
        [[("count", Value.intV n)]] →
      n ≤ 0 → (table_exists b db tn).1 = false) := by
  constructor
  · intro h
    simp [table_exists, execute_query, effParams, h]
  · intro n h hf hn
    simp [table_exists, execute_query, effParams, h, hf, List.lookup]
    omega

/-- Witness for C10: on a backend that rejects every statement, and on one that
reports a zero count, `table_exists` returns `false`. -/
theorem table_exists_false_witness :
    (table_exists failBackend "sakila" "users").1 = false ∧
    (table_exists zeroCountBackend "sakila" "users").1 = false :=
  ⟨(table_exists_false_on_error_or_absent failBackend "sakila" "users").1 rfl,
   (table_exists_false_on_error_or_absent zeroCountBackend "sakila" "users").2
     0 rfl rfl (by omega)⟩

/-- The success flag of `runStatements` is the conjunction of the per-statement
driver outcomes. -/
theorem runStatements_ok (b : Backend) (l : List String) :
    (runStatements b l).2 = l.all (fun s => b.execOk s []) := by
  induction l with
  | nil => rfl
  | cons s rest ih =>
    rcases hs : b.execOk s [] with _ | _ <;> simp [runStatements, hs, ih]

/-- When every statement succeeds, `runStatements` executes each one in order. -/
theorem runStatements_success (b : Backend) (l : List String)
    (h : (runStatements b l).2 = true) :
    (runStatements b l).1 = l.map (fun s => Event.exec s []) := by
  induction l with
  | nil => rfl
  | cons s rest ih =>
    rcases hs : b.execOk s [] with _ | _
    · simp [runStatements, hs] at h
    · simp only [runStatements, hs, if_true] at h ⊢
      simp at h ⊢
      exact ih h

/-- The statements `runStatements` executes always form a prefix of its input. -/
theorem runStatements_prefix (b : Backend) (l : List String) :
    ∃ l', l' <+: l ∧ (runStatements b l).1 = l'.map (fun s => Event.exec s []) := by
  induction l with
  | nil => exact ⟨[], List.nil_prefix, rfl⟩
  | cons s rest ih =>
    rcases hs : b.execOk s [] with _ | _
    · exact ⟨[s], by simp, by simp [runStatements, hs]⟩
    · obtain ⟨l', hpre, heq⟩ := ih
      exact ⟨s :: l', by simpa using hpre, by simp [runStatements, hs, heq]⟩

/-- C6: `execute_script` splits on the delimiter, executes each non-empty
trimmed statement in sequence, commits exactly once at the end on success;
on any failure it rolls back, aborts the remaining statements (the executed
ones form a prefix of the split), commits nothing, and returns `false`. -/
theorem execute_script_commit_once (b : Backend) (script : String) :
    ((scriptStatements script).all (fun s => b.execOk s []) = true →
      b.commitOk = true →
      execute_script b script =
        (true, (scriptStatements script).map (fun s => Event.exec s []) ++
          [Event.commit]) ∧
      (execute_script b script).2.count Event.commit = 1 ∧
      (execute_script b script).2.getLast? = some Event.commit) ∧
    (((scriptStatements script).all (fun s => b.execOk s []) = false ∨
        b.commitOk = false) →
      (execute_script b script).1 = false ∧
      Event.commit ∉ (execute_script b script).2 ∧
      ∃ l', l' <+: scriptStatements script ∧
        (execute_script b script).2 =
          l'.map (fun s => Event.exec s []) ++
            [Event.diag ("Error executing script: " ++ b.errMsg), Event.rollback]) := by
  constructor
  · intro hall hc
    have h2 : (runStatements b (scriptStatements script)).2 = true := by
      rw [runStatements_ok]; exact hall
    have h1 := runStatements_success b (scriptStatements script) h2
    have hz : ((scriptStatements script).map
        (fun s => Event.exec s [])).count Event.commit = 0 := by
      simp [List.count_eq_zero, List.mem_map]
    refine ⟨by simp [execute_script, h2, hc, h1], ?_, ?_⟩
    · simp [execute_script, h2, hc, h1, List.count_append, hz]
    · simp [execute_script, h2, hc, h1]
  · intro hfail
    rcases h2 : (runStatements b (scriptStatements script)).2 with _ | _
    · obtain ⟨l', hpre, heq⟩ := runStatements_prefix b (scriptStatements script)
      refine ⟨by simp [execute_script, h2], ?_, l', hpre,
        by simp [execute_script, h2, heq]⟩
      simp [execute_script, h2, heq, List.mem_map]
    · have hc : b.commitOk = false := by
        rcases hfail with h | h
        · rw [runStatements_ok, h] at h2; cases h2
        · exact h
      have h1 := runStatements_success b (scriptStatements script) h2
      refine ⟨by simp [execute_script, h2, hc], ?_, scriptStatements script,
        List.prefix_refl _, by simp [execute_script, h2, hc, h1]⟩
      simp [execute_script, h2, hc, h1, List.mem_map]

/-- Witness for C6: the two-statement script without a trailing delimiter
executes both statements and commits once at the end. -/
theorem execute_script_commit_once_witness :
    execute_script okBackend "DROP TABLE IF EXISTS a; DROP TABLE IF EXISTS b" =
      (true, [Event.exec "DROP TABLE IF EXISTS a" [],
              Event.exec "DROP TABLE IF EXISTS b" [], Event.commit]) := by
  have h := ((execute_script_commit_once okBackend
    "DROP TABLE IF EXISTS a; DROP TABLE IF EXISTS b").1 (by decide) rfl).1
  rw [h]
  rfl

/-- Counterexample to C2 as stated: on a backend that rejects the statement,
`truncate_table` returns the failure sentinel without any rollback. -/
theorem truncate_table_no_rollback :
    (truncate_table failBackend "users").1 = false ∧
    Event.rollback ∉ (truncate_table failBackend "users").2 := by
  decide

/-- C2 (amended): every mutating operation except `truncate_table`
(`execute_non_query`, `insert`, `insert_many`, `update`, `delete`,
`execute_script`) rolls back before returning its failure sentinel when a
backend error occurs; `truncate_table` returns its failure sentinel without
issuing a rollback. -/
theorem mutating_failure_rollback (b : Backend) (q table cond tn script : String)
    (p : Option (List Value)) (data : List (String × Value))
    (cols : List String) (rows : List (List Value)) (cps : List Value) :
    ((b.execOk q (effParams p) = false ∨ b.commitOk = false) →
      (execute_non_query b q p).1 = -1 ∧
        Event.rollback ∈ (execute_non_query b q p).2) ∧
    ((b.execOk (insertQuery table data) (data.map Prod.snd) = false ∨
        b.commitOk = false) →
      (insert b table data).1 = none ∧
        Event.rollback ∈ (insert b table data).2) ∧
    ((b.execManyOk (insertManyQuery table cols) rows = false ∨
        b.commitOk = false) →
      (insert_many b table cols rows).1 = -1 ∧
        Event.rollback ∈ (insert_many b table cols rows).2) ∧
    ((b.execOk (updateQuery table data cond) (data.map Prod.snd ++ cps) = false ∨
        b.commitOk = false) →
      (update b table data cond cps).1 = -1 ∧
        Event.rollback ∈ (update b table data cond cps).2) ∧
    ((b.execOk ("DELETE FROM " ++ table ++ " WHERE " ++ cond) cps = false ∨
        b.commitOk = false) →
      (delete b table cond cps).1 = -1 ∧
        Event.rollback ∈ (delete b table cond cps).2) ∧
    (((scriptStatements script).all (fun s => b.execOk s []) = false ∨
        b.commitOk = false) →
      (execute_script b script).1 = false ∧
        Event.rollback ∈ (execute_script b script).2) ∧
    ((b.execOk ("TRUNCATE TABLE " ++ tn) [] = false ∨ b.commitOk = false) →
      (truncate_table b tn).1 = false ∧
        Event.rollback ∉ (truncate_table b tn).2) := by
  refine ⟨?_, ?_, ?_, ?_, ?_, ?_, ?_⟩
  · intro h
    rcases h1 : b.execOk q (effParams p) with _ | _
    · simp [execute_non_query, h1]
    · have hc : b.commitOk = false := by
        rcases h with h | h
        · rw [h1] at h; cases h
        · exact h
      simp [execute_non_query, h1, hc]
  · intro h
    rcases h1 : b.execOk (insertQuery table data) (data.map Prod.snd) with _ | _
    · simp [insert, h1]
    · have hc : b.commitOk = false := by
        rcases h with h | h
        · rw [h1] at h; cases h
        · exact h
      simp [insert, h1, hc]
  · intro h
    rcases h1 : b.execManyOk (insertManyQuery table cols) rows with _ | _
    · simp [insert_many, h1]
    · have hc : b.commitOk = false := by
        rcases h with h | h
        · rw [h1] at h; cases h
        · exact h
      simp [insert_many, h1, hc]
  · intro h
    rcases h1 : b.execOk (updateQuery table data cond)
        (data.map Prod.snd ++ cps) with _ | _
    · simp [update, execute_non_query, effParams, h1]
    · have hc : b.commitOk = false := by
        rcases h with h | h
        · rw [h1] at h; cases h
        · exact h
      simp [update, execute_non_query, effParams, h1, hc]
  · intro h
    rcases h1 : b.execOk ("DELETE FROM " ++ table ++ " WHERE " ++ cond)
        cps with _ | _
    · simp [delete, execute_non_query, effParams, h1]
    · have hc : b.commitOk = false := by
        rcases h with h | h
        · rw [h1] at h; cases h
        · exact h
      simp [delete, execute_non_query, effParams, h1, hc]
  · intro h
    rcases h2 : (runStatements b (scriptStatements script)).2 with _ | _
    · obtain ⟨l', _, heq⟩ := runStatements_prefix b (scriptStatements script)
      constructor
      · simp [execute_script, h2]
      · simp [execute_script, h2, heq]
    · have hc : b.commitOk = false := by
        rcases h with h | h
        · rw [runStatements_ok, h] at h2; cases h2
        · exact h
      have h1 := runStatements_success b (scriptStatements script) h2
      constructor
      · simp [execute_script, h2, hc]
      · simp [execute_script, h2, hc, h1]
  · intro h
    rcases h1 : b.execOk ("TRUNCATE TABLE " ++ tn) [] with _ | _
    · simp [truncate_table, h1]
    · have hc : b.commitOk = false := by
        rcases h with h | h
        · rw [h1] at h; cases h
        · exact h
      simp [truncate_table, h1, hc]

/-- Witness for the amended C2 at a concrete failing backend: a failed delete
rolls back, a failed truncate does not. -/
theorem mutating_failure_rollback_witness :
    ((execute_non_query failBackend "DELETE FROM users WHERE id = %s"
        (some [Value.intV 3])).1 = -1 ∧
      Event.rollback ∈ (execute_non_query failBackend
        "DELETE FROM users WHERE id = %s" (some [Value.intV 3])).2) ∧
    ((truncate_table failBackend "users").1 = false ∧
      Event.rollback ∉ (truncate_table failBackend "users").2) := by
  have h := mutating_failure_rollback failBackend
    "DELETE FROM users WHERE id = %s" "users" "id = %s" "users" ""
    (some [Value.intV 3]) [] [] [] []
  exact ⟨h.1 (Or.inl rfl), h.2.2.2.2.2.2 (Or.inl rfl)⟩

/-- Counterexample to C3 as stated: a supplied `limit` of `0` is falsy in
Python, so the generated statement contains no LIMIT clause at all. -/
theorem selectQuery_limit_zero_omitted :
    selectQuery "users" "*" none none (some 0) = "SELECT * FROM users" ∧
    ¬ (" LIMIT 0").data <+: (selectQuery "users" "*" none none
      (some 0)).data ∧
    ¬ (" LIMIT 0").data <:+: (selectQuery "users" "*" none none (some 0)).data := by
  refine ⟨rfl, by decide, by decide⟩

/-- C3 (amended): `select` delegates the generated statement to the query
path; the WHERE / ORDER BY / LIMIT clauses are appended in that fixed order,
each present exactly when its argument is truthy, so an omitted argument omits
its clause and a supplied non-zero limit N yields ` LIMIT N` — but a supplied
limit of 0 (falsy) omits the clause like an omitted argument. -/
theorem selectQuery_clause_order (b : Backend) (table cols cond ord : String)
    (ps : Option (List Value)) (N : Int)
    (hc : cond ≠ "") (ho : ord ≠ "") (hN : N ≠ 0) :
    (∀ c o l, select b table cols c ps o l =
      execute_query b (selectQuery table cols c o l) ps) ∧
    selectQuery table cols none none none =
      "SELECT " ++ cols ++ " FROM " ++ table ∧
    selectQuery table cols (some cond) (some ord) (some N) =
      "SELECT " ++ cols ++ " FROM " ++ table ++ " WHERE " ++ cond ++
        " ORDER BY " ++ ord ++ " LIMIT " ++ toString N ∧
    selectQuery table cols (some cond) none (some N) =
      "SELECT " ++ cols ++ " FROM " ++ table ++ " WHERE " ++ cond ++
        " LIMIT " ++ toString N ∧
    selectQuery table cols none (some ord) (some N) =
      "SELECT " ++ cols ++ " FROM " ++ table ++ " ORDER BY " ++ ord ++
        " LIMIT " ++ toString N ∧
    selectQuery table cols (some cond) (some ord) none =
      "SELECT " ++ cols ++ " FROM " ++ table ++ " WHERE " ++ cond ++
        " ORDER BY " ++ ord ∧
    selectQuery table cols (some cond) (some ord) (some 0) =
      selectQuery table cols (some cond) (some ord) none := by
  refine ⟨fun c o l => rfl, ?_, ?_, ?_, ?_, ?_, ?_⟩ <;>
    simp [selectQuery, truthyStr, truthyInt, hc, ho, hN, String.append_assoc]

/-- Witness for the amended C3 at concrete arguments. -/
theorem selectQuery_clause_order_witness :
    selectQuery "users" "*" (some "id = %s") (some "id DESC") (some 5) =
      "SELECT * FROM users WHERE id = %s ORDER BY id DESC LIMIT 5" := by
  have h := (selectQuery_clause_order okBackend "users" "*" "id = %s" "id DESC"
    none 5 (by decide) (by decide) (by decide)).2.2.1
  rw [h]
  rfl

/-- C7: entering the scoped block calls `connect` and ignores its Boolean
result (the run is the same for every connect outcome's flag), and exiting
always calls `disconnect` — for every connect outcome and whether or not the
body raised. -/
theorem scoped_acquisition_always_disconnects (oc : ConnectOutcome)
    (bodyRaises : Bool) (st : ConnState) :
    (∀ b', scopedRun oc bodyRaises st = scopedRun oc b' st) ∧
    LifeEvent.connectCall ∈ (scopedRun oc bodyRaises st).2 ∧
    LifeEvent.disconnectCall ∈ (scopedRun oc bodyRaises st).2 ∧
    (scopedRun oc bodyRaises st).1 = (disconnect (connect oc st).2.1).1 := by
  refine ⟨fun b' => rfl, ?_, ?_, rfl⟩ <;>
    cases oc <;> simp [scopedRun, connect, disconnect]

/-- Counterexample to C8 as stated: when cursor creation fails after the
session was assigned, `connect` returns `false` but leaves the fresh live
session in the connection attribute — the instance is not unconnected. -/
theorem connect_cursor_failure_partial :
    (connect (ConnectOutcome.cursorFail "lost connection") initState).1 = false ∧
    (connect (ConnectOutcome.cursorFail "lost connection")
      initState).2.1.connection = some Handle.live ∧
    (connect (ConnectOutcome.cursorFail "lost connection")
      initState).2.1.connection ≠ none := by
  refine ⟨rfl, rfl, by decide⟩

/-- C8 (amended): `connect` never lets a driver error escape (it is a total
function of the outcome); on failure it emits the diagnostic message and
returns `false`.  When the session-establishment step itself fails the
attributes are untouched, so an unconnected instance stays unconnected; but
when cursor creation fails the connection attribute keeps the fresh live
session while the cursor attribute is unchanged. -/
theorem connect_failure_spec (st : ConnState) (m : String) :
    ((connect (ConnectOutcome.sessionFail m) st).1 = false ∧
      (connect (ConnectOutcome.sessionFail m) st).2.1 = st ∧
      LifeEvent.diag ("Error connecting to database: " ++ m) ∈
        (connect (ConnectOutcome.sessionFail m) st).2.2) ∧
    ((connect (ConnectOutcome.cursorFail m) st).1 = false ∧
      (connect (ConnectOutcome.cursorFail m) st).2.1.connection =
        some Handle.live ∧
      (connect (ConnectOutcome.cursorFail m) st).2.1.cursor = st.cursor ∧
      LifeEvent.diag ("Error connecting to database: " ++ m) ∈
        (connect (ConnectOutcome.cursorFail m) st).2.2) := by
  refine ⟨⟨rfl, rfl, ?_⟩, rfl, rfl, rfl, ?_⟩ <;> simp [connect]

/-- `disconnect` always leaves a state with no live handles. -/
theorem disconnect_fully_disconnects (st : ConnState) :
    fullyDisconnected (disconnect st).1 := by
  rcases st with ⟨conn, cur⟩
  cases conn with
  | none => cases cur <;> simp [disconnect, fullyDisconnected]
  | some c => cases c <;> cases cur <;> simp [disconnect, fullyDisconnected]

/-- Counterexample to C9 as stated: after a connect whose cursor-creation step
failed, the instance is neither fully connected nor fully disconnected. -/
theorem resting_invariant_violated_by_partial_connect :
    ¬ restingConsistent
      (connect (ConnectOutcome.cursorFail "lost connection") initState).2.1 := by
  decide

/-- C9 (amended): construction, successful connect, session-step-failed
connect, and disconnect all leave the instance fully connected or fully
disconnected (CRUD and introspection calls never assign the session or cursor
attributes); the sole exception is a connect failing at cursor creation from a
state without a live cursor, which rests with the session present and the
cursor absent. -/
theorem resting_state_invariant (st : ConnState) (m : String)
    (h : restingConsistent st) :
    restingConsistent initState ∧
    restingConsistent (connect ConnectOutcome.ok st).2.1 ∧
    restingConsistent (connect (ConnectOutcome.sessionFail m) st).2.1 ∧
    restingConsistent (disconnect st).1 ∧
    (st.cursor ≠ some Handle.live →
      ¬ restingConsistent (connect (ConnectOutcome.cursorFail m) st).2.1) := by
  refine ⟨by decide, Or.inl ⟨rfl, rfl⟩, h,
    Or.inr (disconnect_fully_disconnects st), ?_⟩
  intro hcur hcontra
  rcases hcontra with ⟨_, h2⟩ | ⟨h1, _⟩
  · exact hcur h2
  · exact h1 rfl

/-- Witness for the amended C9 at the freshly constructed instance. -/
theorem resting_state_invariant_witness :
    restingConsistent (disconnect initState).1 ∧
    ¬ restingConsistent
      (connect (ConnectOutcome.cursorFail "gone") initState).2.1 := by
  have h := resting_state_invariant initState "gone" (Or.inr (by decide))
  exact ⟨h.2.2.2.1, h.2.2.2.2 (by decide)⟩

end SqlTesting
